/-
Verification of the change-detection and output-normalization pipeline of
`apps/backend/python/aider_runner.py` (repository Bigmakaveli/LandingAI).

Shallow embedding conventions:
* Python strings are embedded as `List Char` (`PyStr`); `toL` converts a
  Lean string literal to that representation.
* Filesystem state is a finite list of entries (path components plus a
  directory flag); `glob.glob` is embedded as a filter over the entries.
* External effects (the `git rev-parse` subprocess, the `aider_main` call)
  are supplied by an environment record; a Python exception raised by the
  agent is an `Except.error` value.
-/
import Mathlib

/-- Convert a Lean string literal to the `List Char` embedding of Python strings. -/
def toL (s : String) : List Char := s.toList

/-- Python strings are embedded as lists of characters. -/
abbrev PyStr := List Char

/-- Characters removed by the Python `str.strip()` method (ASCII whitespace). -/
def pyIsSpace (c : Char) : Bool :=
  c == ' ' || c == '\t' || c == '\n' || c == '\r' || c == '\x0b' || c == '\x0c'

/-- Embedding of Python `str.strip()`: drop leading and trailing whitespace. -/
def pyStrip (s : PyStr) : PyStr :=
  ((s.dropWhile pyIsSpace).reverse.dropWhile pyIsSpace).reverse

/-- Embedding of the Python `split` on newline: split the string at each
newline character, keeping empty pieces. -/
def splitNl : PyStr → List PyStr
  | [] => [[]]
  | c :: rest =>
    if c = '\n' then [] :: splitNl rest
    else
      match splitNl rest with
      | [] => [[c]]
      | l :: ls => (c :: l) :: ls

/-- The banner prefixes filtered from raw output in `create_user_output`
(`aider_runner.py` line 170); each is tested with `line.startswith(...)`
on the unstripped line. -/
def bannerHeads : List PyStr :=
  [toL "─", toL "Aider v", toL "Main model:", toL "Weak model:",
   toL "Git repo:", toL "Repo-map:"]

/-- The fixed fallback message of `create_user_output` (line 182). -/
def fallbackMessage : PyStr :=
  toL "Hello! How can I help you with your landing page today?"

/-- The line-filtering loop of the `file_changed == False` branch of
`create_user_output` (`aider_runner.py` lines 166-174): skip
`Added ... to the chat.` lines; for a line whose strip is non-empty and
that starts with none of the banner heads, stop at a `Tokens:` line
(Python `break`) and otherwise keep the stripped line. -/
def filterLoop : List PyStr → List PyStr
  | [] => []
  | line :: rest =>
    let s := pyStrip line
    if (toL "Added ").isPrefixOf s && (toL " to the chat.").isSuffixOf s then
      filterLoop rest
    else if !s.isEmpty && bannerHeads.all (fun p => !(p.isPrefixOf line)) then
      if (toL "Tokens:").isPrefixOf s then []
      else s :: filterLoop rest
    else
      filterLoop rest

/-- The filtered response computed in the `file_changed == False` branch of
`create_user_output` (lines 160-177): join the kept stripped lines with
newlines and strip the result. -/
def filteredResponse (aider_output : PyStr) : PyStr :=
  pyStrip (List.intercalate (toL "\n") (filterLoop (splitNl aider_output)))

/-- Embedding of `create_user_output(aider_output, file_changed)`
(`aider_runner.py` lines 121-182).  When `file_changed` is true the function
returns `aider_output` at once (line 133); the code below that `return`
(lines 134-157, the fixed-confirmation construction) is unreachable.  When
`file_changed` is false it returns the filtered response, or the fixed
fallback message when the filtered response is empty (Python truthiness of
`if response:`). -/
def create_user_output (aider_output : PyStr) (file_changed : Bool) : PyStr :=
  if file_changed then
    aider_output
  else
    let response := filteredResponse aider_output
    if response.isEmpty then fallbackMessage else response

/-- Result of the `git rev-parse HEAD` subprocess run by
`get_git_head_commit` (lines 70-76): `ok` is true when the process returned
with code 0 before the 10-second timeout and without raising; `out` is its
stripped standard output. -/
structure GitQuery where
  ok : Bool
  out : PyStr
deriving DecidableEq

/-- Embedding of `get_git_head_commit(folder_path)` (lines 51-85):
returns the empty string when `folder_path/.git` does not exist
(`gitDirExists` models the `os.path.exists` check) or when the
`git rev-parse HEAD` query failed; otherwise the stripped stdout. -/
def get_git_head_commit (gitDirExists : Bool) (q : GitQuery) : PyStr :=
  if !gitDirExists then []
  else if q.ok then q.out else []

/-- Embedding of `analyze_aider_output(folder_path, before_commit)`
(lines 88-118): false when `folder_path/.git` does not exist; otherwise the
after-fingerprint is captured by `get_git_head_commit`, false when it is
empty, and otherwise the result is `before_commit != after_commit`. -/
def analyze_aider_output (gitDirExists : Bool) (q : GitQuery) (before_commit : PyStr) : Bool :=
  if !gitDirExists then false
  else
    let after_commit := get_git_head_commit gitDirExists q
    if after_commit.isEmpty then false
    else before_commit != after_commit

/-- A filesystem path, as a list of name components (each a Python string). -/
abbrev FsPath := List PyStr

/-- One filesystem entry: its path and whether it is a directory. -/
structure FSEntry where
  path : FsPath
  isDir : Bool
deriving DecidableEq

/-- The filesystem visible to the script: the finite list of entries. -/
structure FileSystem where
  entries : List FSEntry
deriving DecidableEq

/-- Embedding of `os.path.exists`: some entry has this path. -/
def pathExists (fs : FileSystem) (p : FsPath) : Bool :=
  fs.entries.any (fun e => e.path == p)

/-- Embedding of `os.path.isdir`: some directory entry has this path. -/
def isDirAt (fs : FileSystem) (p : FsPath) : Bool :=
  fs.entries.any (fun e => e.path == p && e.isDir)

/-- Whether a name component is hidden: the `*` and `**` wildcards of
`glob` do not match a leading dot. -/
def hiddenName (n : PyStr) : Bool :=
  match n with
  | [] => false
  | c :: _ => c == '.'

/-- Whether the `glob` pattern `*.<ext>` matches a name: the name ends with
the extension and is not hidden.  (`ext` carries the dot, e.g. `.html`.) -/
def matchesStar (ext : PyStr) (n : PyStr) : Bool :=
  ext.isSuffixOf n && !hiddenName n

/-- Strip a leading directory from a path: `some rel` when
`p = folder ++ rel`, else `none`. -/
def stripDirPath : FsPath → FsPath → Option FsPath
  | [], p => some p
  | a :: as, p =>
    match p with
    | [] => none
    | b :: bs => if a = b then stripDirPath as bs else none

/-- Embedding of `glob.glob(str(folder / pattern))` for pattern `*.<ext>`:
entries directly inside `folder` whose name matches.  `glob` does not
filter by file type, so directory entries with a matching name are kept. -/
def globDirect (fs : FileSystem) (folder : FsPath) (ext : PyStr) : List FSEntry :=
  fs.entries.filter (fun e =>
    match stripDirPath folder e.path with
    | some [n] => matchesStar ext n
    | _ => false)

/-- Embedding of `glob.glob(str(folder / "**" / pattern), recursive=True)`:
entries at any depth under `folder` (including depth one, since `**`
matches zero directories) whose final name matches and whose intermediate
components are not hidden. -/
def globRecursive (fs : FileSystem) (folder : FsPath) (ext : PyStr) : List FSEntry :=
  fs.entries.filter (fun e =>
    match stripDirPath folder e.path with
    | some rel =>
      match rel.getLast? with
      | some n => matchesStar ext n && rel.dropLast.all (fun d => !hiddenName d)
      | none => false
    | none => false)

/-- The extension patterns `["*.html", "*.js", "*.css"]` of `find_web_files`
(line 40), represented by their extensions. -/
def webExtensions : List PyStr := [toL ".html", toL ".js", toL ".css"]

/-- Embedding of `find_web_files(folder_path)` (lines 25-48): raise
`FileNotFoundError` when the folder does not exist; otherwise, for each
pattern in order, extend the list with the direct glob then the recursive
glob, and return the collected full paths. -/
def find_web_files (fs : FileSystem) (folder : FsPath) : Except PyStr (List FsPath) :=
  if !pathExists fs folder then
    .error (toL "Folder not found: " ++ List.intercalate (toL "/") folder)
  else
    .ok ((webExtensions.flatMap
      (fun ext => globDirect fs folder ext ++ globRecursive fs folder ext)).map
        (fun e => e.path))

instance {ε α : Type} [DecidableEq ε] [DecidableEq α] : DecidableEq (Except ε α) :=
  fun a b =>
    match a, b with
    | .ok x, .ok y =>
      if h : x = y then .isTrue (by rw [h]) else .isFalse (fun hh => h (Except.ok.inj hh))
    | .error x, .error y =>
      if h : x = y then .isTrue (by rw [h]) else .isFalse (fun hh => h (Except.error.inj hh))
    | .ok _, .error _ => .isFalse (fun hh => Except.noConfusion hh)
    | .error _, .ok _ => .isFalse (fun hh => Except.noConfusion hh)

/-- The target-folder selection of `run_aider_on_folder` (lines 202-209):
`folder/site` when it exists and is a directory, else `folder`. -/
def select_target (fs : FileSystem) (folder : FsPath) : FsPath :=
  let site_path := folder ++ [toL "site"]
  if pathExists fs site_path && isDirAt fs site_path then site_path else folder

/-- Render a path as a string by joining its components with `/`
(the Python slash join). -/
def joinSlash : List PyStr → PyStr
  | [] => []
  | [n] => n
  | n :: rest => n ++ toL "/" ++ joinSlash rest

/-- Embedding of `os.path.relpath(file_path, target_folder)` for the paths
produced by the globs over `target_folder`: render the components of the
path below the target folder. -/
def relpath (target : FsPath) (p : FsPath) : PyStr :=
  joinSlash ((stripDirPath target p).getD p)

/-- The combined message built at line 226:
`f"System: {system_message}\n\nUser: {user_message}"`. -/
def full_message (system_message user_message : PyStr) : PyStr :=
  toL "System: " ++ system_message ++ toL "\n\nUser: " ++ user_message

/-- The argument list built for `aider_main` (lines 229-242): the fixed
flags followed by a `--file` reference per discovered file. -/
def build_argv (msg : PyStr) (relFiles : List PyStr) : List PyStr :=
  [toL "--model", toL "gpt-5",
   toL "--message", msg,
   toL "--yes",
   toL "--no-pretty",
   toL "--no-detect-urls",
   toL "--no-git"]
  ++ relFiles.flatMap (fun f => [toL "--file", f])

/-- The environment of one invocation: the outcomes of the external
effects performed inside `run_aider_on_folder`.  `agentResult` is the
captured stdout of `aider_main`, or the message of the exception it raised;
`revBefore`/`revAfter` are the two `git rev-parse HEAD` subprocess results;
`gitDirAfter` is whether `folder/.git` exists when `analyze_aider_output`
runs; `agentDuration` is the wall-clock time the agent process takes
(the source never consults any clock or timeout around `aider_main`). -/
structure AgentEnv where
  agentResult : Except PyStr PyStr
  revBefore : GitQuery
  gitDirAfter : Bool
  revAfter : GitQuery
  agentDuration : Nat
deriving DecidableEq

/-- The structured result dictionary returned by `run_aider_on_folder`
(lines 195-199): `{"userOutput": str, "fileChanged": bool}`. -/
structure RunResult where
  userOutput : PyStr
  fileChanged : Bool
deriving DecidableEq

/-- Embedding of `run_aider_on_folder(folder_path, system_message,
user_message)` (lines 185-279), threading the process working directory
explicitly: the second component of the result is the working directory
when the call returns.  Control flow of the source: select the target
folder; `find_web_files` (its `FileNotFoundError` is caught by the outer
`except Exception`, line 275, producing the `Error running Aider:` record);
return the `No ... files found` record on an empty file set; `os.chdir` to
the target; build the message and argv; capture the before-fingerprint; run
`aider_main` under `redirect_stdout` (an exception propagates through the
inner `finally`, which restores the working directory, to the outer
`except`); otherwise analyze the commits and build the user output, the
`finally` again restoring the working directory. -/
def run_aider_on_folder (fs : FileSystem) (env : AgentEnv) (folder : FsPath)
    (system_message user_message : PyStr) (cwd : FsPath) : RunResult × FsPath :=
  let target_folder := select_target fs folder
  match find_web_files fs target_folder with
  | .error msg =>
    (⟨toL "Error running Aider: " ++ msg, false⟩, cwd)
  | .ok web_files =>
    if web_files.isEmpty then
      (⟨toL "No HTML, JS, or CSS files found in " ++ joinSlash target_folder, false⟩, cwd)
    else
      let original_cwd := cwd
      -- os.chdir(target_folder); from here every exit path passes through
      -- the finally block restoring original_cwd
      let _argv := build_argv (full_message system_message user_message)
        (web_files.map (relpath target_folder))
      let before_commit :=
        get_git_head_commit (pathExists fs (folder ++ [toL ".git"])) env.revBefore
      match env.agentResult with
      | .error e =>
        (⟨toL "Error running Aider: " ++ e, false⟩, original_cwd)
      | .ok aider_output =>
        let file_changed := analyze_aider_output env.gitDirAfter env.revAfter before_commit
        let user_output := create_user_output aider_output file_changed
        (⟨user_output, file_changed⟩, original_cwd)

/-- The argument list that `run_aider_on_folder` passes to `aider_main`
when the invocation reaches the agent (lines 226-242). -/
def run_argv (fs : FileSystem) (folder : FsPath)
    (system_message user_message : PyStr) : List PyStr :=
  let target_folder := select_target fs folder
  build_argv (full_message system_message user_message)
    (((find_web_files fs target_folder).toOption.getD []).map (relpath target_folder))

/-- Modelled from the spec: the `maxLength` truncation step of the Output
Reducer (spec §4.4 and the `codeDiff` variant of §6).  No function in the Python sources
under `src/` takes a `maxLength` or truncates; the spec describes the
retained raw output as "truncated to `maxLength` characters with an
explicit truncation marker appended when exceeded", a hard cut plus
marker. -/
def truncate_output (raw : PyStr) (maxLength : Nat) (marker : PyStr) : PyStr :=
  if maxLength < raw.length then raw.take maxLength ++ marker else raw


/-- A raw output consisting only of filtered preamble lines: banner, model,
repo and `Added ... to the chat.` lines, with no substantive content. -/
def preambleOnlyOutput : PyStr :=
  toL "Aider v0.86.1\nMain model: gpt-5 with diff edit format\nWeak model: gpt-4o-mini\nGit repo: none\nRepo-map: using 1024 tokens\n\nAdded index.html to the chat.\nAdded style.css to the chat.\n"

/-- Example root `site-b` with a `site` subdirectory holding `index.html`
and a sibling `assets` subdirectory holding `app.js`. -/
def siteAssetsFs : FileSystem := ⟨[
  ⟨[toL "site-b"], true⟩,
  ⟨[toL "site-b", toL "site"], true⟩,
  ⟨[toL "site-b", toL "site", toL "index.html"], false⟩,
  ⟨[toL "site-b", toL "assets"], true⟩,
  ⟨[toL "site-b", toL "assets", toL "app.js"], false⟩]⟩

/-- Example target folder holding one web file and a subdirectory whose
name matches a web extension. -/
def dupFs : FileSystem := ⟨[
  ⟨[toL "t"], true⟩,
  ⟨[toL "t", toL "a.html"], false⟩,
  ⟨[toL "t", toL "sub.css"], true⟩]⟩

/-- Example folder with a single web file, no `site` subdirectory and no
version control. -/
def wwwFs : FileSystem := ⟨[
  ⟨[toL "www"], true⟩,
  ⟨[toL "www", toL "index.html"], false⟩]⟩

/-- An environment whose agent run prints `hello` and succeeds, with no
version control available. -/
def helloEnv : AgentEnv := ⟨.ok (toL "hello"), ⟨false, []⟩, false, ⟨false, []⟩, 0⟩

/-- An environment whose agent raises an exception with message `boom`. -/
def boomEnv : AgentEnv := ⟨.error (toL "boom"), ⟨false, []⟩, false, ⟨false, []⟩, 0⟩

/-- C1 counterexample: the claim says that when `fileChanged` is true the
reduction returns a fixed confirmation string independent of `rawOutput`;
but `create_user_output` returns different outputs on raw outputs `"a"` and
`"b"` with `file_changed = true`. -/
theorem create_user_output_changed_not_fixed :
    create_user_output (toL "a") true ≠ create_user_output (toL "b") true := by
  decide

/-- C1 (amended): when `fileChanged` is true, `create_user_output` returns
`rawOutput` unmodified (the fixed-confirmation construction below the
`return` at line 133 is unreachable), so the result does depend on the
content of `rawOutput`. -/
theorem create_user_output_changed_eq_raw :
    ∀ raw : PyStr, create_user_output raw true = raw := by
  intro raw
  rfl

/-- C2 counterexample: the claim says change detection returns false
whenever either fingerprint is empty, in particular on the pair
`(empty, x)` with `x` non-empty; but with the `.git` directory present, an
empty `before_commit` and after-fingerprint `"abc"`, `analyze_aider_output`
returns true. -/
theorem analyze_aider_output_empty_before_true :
    analyze_aider_output true ⟨true, toL "abc"⟩ [] = true := by
  decide

/-- C2 (amended): change detection is string inequality guarded only on the
after side: it returns false whenever the before fingerprint equals the
after fingerprint (in particular on `(empty, empty)`), false whenever the
after fingerprint is empty, and true whenever the after fingerprint is
available and non-empty and differs from the before fingerprint — including
the pair `(empty, x)` with `x` non-empty. -/
theorem analyze_aider_output_characterization :
    ∀ (gitDirExists : Bool) (q : GitQuery) (before_commit : PyStr),
      (before_commit = get_git_head_commit gitDirExists q →
        analyze_aider_output gitDirExists q before_commit = false) ∧
      ((get_git_head_commit gitDirExists q).isEmpty = true →
        analyze_aider_output gitDirExists q before_commit = false) ∧
      (gitDirExists = true → (get_git_head_commit gitDirExists q).isEmpty = false →
        before_commit ≠ get_git_head_commit gitDirExists q →
        analyze_aider_output gitDirExists q before_commit = true) := by
  intro g q b
  refine ⟨?_, ?_, ?_⟩
  · intro h
    cases g with
    | false => rfl
    | true =>
      simp only [analyze_aider_output, Bool.not_true, Bool.false_eq_true, if_false]
      rw [← h]
      by_cases hb : b.isEmpty
      · simp [hb]
      · simp [hb]
  · intro h
    cases g with
    | false => rfl
    | true =>
      simp only [analyze_aider_output, Bool.not_true, Bool.false_eq_true, if_false]
      simp [h]
  · intro hg hne hdiff
    subst hg
    simp only [analyze_aider_output, Bool.not_true, Bool.false_eq_true, if_false]
    simp [hne, hdiff]

/-- C2 witness: the amended characterization at concrete fingerprints —
equal fingerprints give false, a failed after-query gives false, and an
empty before with non-empty after gives true. -/
theorem analyze_aider_output_characterization_witness :
    analyze_aider_output true ⟨true, toL "abc"⟩ (toL "abc") = false ∧
    analyze_aider_output true ⟨false, toL "zzz"⟩ (toL "abc") = false ∧
    analyze_aider_output true ⟨true, toL "abc"⟩ [] = true :=
  ⟨(analyze_aider_output_characterization true ⟨true, toL "abc"⟩ (toL "abc")).1 (by decide),
   (analyze_aider_output_characterization true ⟨false, toL "zzz"⟩ (toL "abc")).2.1 (by decide),
   (analyze_aider_output_characterization true ⟨true, toL "abc"⟩ []).2.2 rfl (by decide)
     (by decide)⟩

/-- C4: the spec-modelled truncation step of the Output Reducer: raw output
shorter than `maxLength` is returned unmodified with no marker appended;
raw output longer than `maxLength` yields a result of length exactly
`maxLength` plus the marker length whose first `maxLength` characters are a
prefix of the raw output. -/
theorem truncate_output_spec :
    ∀ (raw : PyStr) (maxLength : Nat) (marker : PyStr),
      (raw.length < maxLength → truncate_output raw maxLength marker = raw) ∧
      (maxLength < raw.length →
        (truncate_output raw maxLength marker).length = maxLength + marker.length ∧
        (truncate_output raw maxLength marker).take maxLength <+: raw) := by
  intro raw m marker
  constructor
  · intro h
    unfold truncate_output
    rw [if_neg (by omega)]
  · intro h
    unfold truncate_output
    rw [if_pos h]
    constructor
    · simp only [List.length_append, List.length_take]
      omega
    · rw [List.take_append_eq_append_take, List.length_take]
      have hmin : min m raw.length = m := Nat.min_eq_left (Nat.le_of_lt h)
      rw [hmin, Nat.sub_self, List.take_zero, List.append_nil, List.take_take,
        Nat.min_self]
      exact ⟨raw.drop m, List.take_append_drop m raw⟩

/-- C4 witness: the truncation theorem applied at concrete inputs — a short
raw output is unchanged; a long one is cut to `maxLength` plus the marker. -/
theorem truncate_output_spec_witness :
    truncate_output (toL "ab") 5 (toL "!!") = toL "ab" ∧
    (truncate_output (toL "abcdef") 3 (toL "!!")).length = 3 + (toL "!!").length ∧
    (truncate_output (toL "abcdef") 3 (toL "!!")).take 3 <+: toL "abcdef" :=
  ⟨(truncate_output_spec (toL "ab") 5 (toL "!!")).1 (by decide),
   ((truncate_output_spec (toL "abcdef") 3 (toL "!!")).2 (by decide)).1,
   ((truncate_output_spec (toL "abcdef") 3 (toL "!!")).2 (by decide)).2⟩

/-- C5 counterexample: the claim says the reduction returns a non-empty
string for every `rawOutput` and every `fileChanged` flag; but with
`fileChanged = true` and empty raw output, `create_user_output` returns the
empty string. -/
theorem create_user_output_changed_empty :
    create_user_output [] true = [] := by
  decide

/-- C5 (amended): when `fileChanged` is false the reduction always returns
a non-empty string, and when the line filter leaves no content it returns
exactly the fixed fallback message; with `fileChanged = true` the raw
output is passed through and may be empty. -/
theorem create_user_output_unchanged_nonempty :
    ∀ raw : PyStr,
      create_user_output raw false ≠ [] ∧
      (filteredResponse raw = [] → create_user_output raw false = fallbackMessage) := by
  intro raw
  by_cases h : (filteredResponse raw).isEmpty
  · constructor
    · simp [create_user_output, h]
      decide
    · intro _
      simp [create_user_output, h]
  · constructor
    · simp only [create_user_output, Bool.false_eq_true, if_false, h]
      simp only [List.isEmpty_iff] at h
      simp [h]
    · intro hh
      simp only [List.isEmpty_iff] at h
      exact absurd hh h

/-- C5 witness: on a raw output consisting only of filtered preamble lines
the filter leaves nothing and the reduction returns the fixed fallback
message, which is non-empty. -/
theorem create_user_output_unchanged_nonempty_witness :
    create_user_output preambleOnlyOutput false ≠ [] ∧
    create_user_output preambleOnlyOutput false = fallbackMessage :=
  ⟨(create_user_output_unchanged_nonempty preambleOnlyOutput).1,
   (create_user_output_unchanged_nonempty preambleOnlyOutput).2 (by decide)⟩

/-- Stripping a leading directory succeeds exactly when the path extends
that directory. -/
theorem stripDirPath_eq_append :
    ∀ (f p rel : FsPath), stripDirPath f p = some rel → p = f ++ rel := by
  intro f
  induction f with
  | nil =>
    intro p rel h
    exact Option.some.inj h
  | cons a as ih =>
    intro p rel h
    cases p with
    | nil => exact absurd h (by simp [stripDirPath])
    | cons b bs =>
      by_cases hab : a = b
      · simp only [stripDirPath, hab, if_true] at h
        have hbs := ih bs rel h
        rw [hbs, hab]
        rfl
      · simp only [stripDirPath, if_neg hab] at h
        exact Option.noConfusion h

/-- Anatomy of a path listed by `find_web_files`: it is the path of an
existing filesystem entry, lies strictly below the searched folder, and its
final name component matches one of the web extension patterns. -/
theorem mem_find_web_files_cases :
    ∀ (fs : FileSystem) (folder : FsPath) (files : List FsPath) (p : FsPath),
      find_web_files fs folder = .ok files → p ∈ files →
      ∃ e, e ∈ fs.entries ∧ e.path = p ∧
        ∃ rel n, stripDirPath folder p = some rel ∧ rel.getLast? = some n ∧
          ∃ ext, ext ∈ webExtensions ∧ matchesStar ext n = true := by
  intro fs folder files p hok hp
  unfold find_web_files at hok
  by_cases hex : pathExists fs folder
  · rw [hex] at hok
    simp only [Bool.not_true, Bool.false_eq_true, if_false, Except.ok.injEq] at hok
    rw [← hok] at hp
    rcases List.mem_map.mp hp with ⟨e, he, hep⟩
    rcases List.mem_flatMap.mp he with ⟨ext, hext, hee⟩
    rcases List.mem_append.mp hee with hd | hr
    · rcases List.mem_filter.mp hd with ⟨hent, hpred⟩
      split at hpred
      · next n heq => exact ⟨e, hent, hep, [n], n, hep ▸ heq, rfl, ext, hext, hpred⟩
      · next => exact absurd hpred (by simp)
    · rcases List.mem_filter.mp hr with ⟨hent, hpred⟩
      split at hpred
      · next rel heq =>
        split at hpred
        · next n hg =>
          rw [Bool.and_eq_true] at hpred
          exact ⟨e, hent, hep, rel, n, hep ▸ heq, hg, ext, hext, hpred.1⟩
        · next => exact absurd hpred (by simp)
      · next => exact absurd hpred (by simp)
  · rw [eq_false_of_ne_true hex] at hok
    simp at hok

/-- C3 counterexample: the claim says that for the root `site-b` holding
`site/index.html` and `assets/app.js` the discovered FileSet includes both
files; but the discovery run by `run_aider_on_folder` searches only the
selected `site` target folder, finds `index.html` (twice, once per glob),
and does not list `assets/app.js`. -/
theorem discovery_misses_sibling_assets :
    (find_web_files siteAssetsFs (select_target siteAssetsFs [toL "site-b"])).toOption.getD []
      = [[toL "site-b", toL "site", toL "index.html"],
         [toL "site-b", toL "site", toL "index.html"]] ∧
    [toL "site-b", toL "assets", toL "app.js"] ∉
      (find_web_files siteAssetsFs (select_target siteAssetsFs [toL "site-b"])).toOption.getD [] := by
  decide

/-- C3 (amended): when the root contains a `site` subdirectory, that
subdirectory becomes the sole search target: every discovered path lies
strictly below `root/site`, so sibling subdirectories of the root are not
enumerated. -/
theorem discovery_confined_to_site :
    ∀ (fs : FileSystem) (folder : FsPath) (files : List FsPath) (p : FsPath),
      (pathExists fs (folder ++ [toL "site"]) && isDirAt fs (folder ++ [toL "site"])) = true →
      find_web_files fs (select_target fs folder) = .ok files →
      p ∈ files →
      ∃ rel, rel ≠ [] ∧ p = (folder ++ [toL "site"]) ++ rel := by
  intro fs folder files p hsite hok hp
  have htarget : select_target fs folder = folder ++ [toL "site"] := by
    unfold select_target
    rw [if_pos hsite]
  rw [htarget] at hok
  rcases mem_find_web_files_cases fs (folder ++ [toL "site"]) files p hok hp with
    ⟨e, _, _, rel, n, hs, hg, _⟩
  refine ⟨rel, ?_, stripDirPath_eq_append _ _ _ hs⟩
  intro hnil
  rw [hnil] at hg
  cases hg

/-- C3 witness: for the concrete root `site-b`, the discovered path
`site-b/site/index.html` decomposes below the `site` target. -/
theorem discovery_confined_to_site_witness :
    ∃ rel, rel ≠ [] ∧ [toL "site-b", toL "site", toL "index.html"]
      = ([toL "site-b"] ++ [toL "site"]) ++ rel :=
  discovery_confined_to_site siteAssetsFs [toL "site-b"]
    [[toL "site-b", toL "site", toL "index.html"],
     [toL "site-b", toL "site", toL "index.html"]]
    [toL "site-b", toL "site", toL "index.html"]
    (by decide) (by decide) (by decide)

/-- C8 counterexample: the claim says the FileSet has no duplicates and no
directories; but on a target holding `a.html` and a subdirectory named
`sub.css`, `find_web_files` lists `a.html` twice (the `*` and `**` globs
both match top-level files) and lists the directory `sub.css`. -/
theorem find_web_files_dup_and_dir :
    ¬ ((find_web_files dupFs [toL "t"]).toOption.getD []).Nodup ∧
    [toL "t", toL "sub.css"] ∈ (find_web_files dupFs [toL "t"]).toOption.getD [] ∧
    isDirAt dupFs [toL "t", toL "sub.css"] = true := by
  decide

/-- C8 (amended): every path listed by `find_web_files` is the path of an
entry of the filesystem at enumeration time; the listing may however
contain duplicates (top-level files are matched by both the direct and the
recursive glob) and is not filtered by file type, so directories whose
names match the extension whitelist are listed too. -/
theorem find_web_files_paths_exist :
    ∀ (fs : FileSystem) (folder : FsPath) (files : List FsPath) (p : FsPath),
      find_web_files fs folder = .ok files → p ∈ files →
      pathExists fs p = true := by
  intro fs folder files p hok hp
  rcases mem_find_web_files_cases fs folder files p hok hp with ⟨e, he, hep, _⟩
  unfold pathExists
  rw [List.any_eq_true]
  refine ⟨e, he, ?_⟩
  rw [hep]
  exact beq_self_eq_true p

/-- C8 witness: the existence theorem applied to the concrete listing of
the `t` folder: the listed path `t/a.html` exists. -/
theorem find_web_files_paths_exist_witness :
    pathExists dupFs [toL "t", toL "a.html"] = true :=
  find_web_files_paths_exist dupFs [toL "t"]
    [[toL "t", toL "a.html"], [toL "t", toL "a.html"],
     [toL "t", toL "sub.css"], [toL "t", toL "sub.css"]]
    [toL "t", toL "a.html"] (by decide) (by decide)

/-- C9: on every exit path of `run_aider_on_folder` — discovery failure,
empty file set, agent exception, or normal completion — the process working
directory at return equals the working directory at entry: the
`try/finally` around the agent call restores it after the `os.chdir` to the
target folder, and the paths before that `os.chdir` never change it. -/
theorem run_aider_on_folder_restores_cwd :
    ∀ (fs : FileSystem) (env : AgentEnv) (folder : FsPath)
      (system_message user_message : PyStr) (cwd : FsPath),
      (run_aider_on_folder fs env folder system_message user_message cwd).2 = cwd := by
  intro fs env folder s u cwd
  cases hfind : find_web_files fs (select_target fs folder) with
  | error msg => simp only [run_aider_on_folder, hfind]
  | ok files =>
    cases hemp : files.isEmpty with
    | true => simp only [run_aider_on_folder, hfind, hemp, if_true]
    | false =>
      cases hag : env.agentResult with
      | error e =>
        simp only [run_aider_on_folder, hfind, hemp, Bool.false_eq_true, if_false, hag]
      | ok out =>
        simp only [run_aider_on_folder, hfind, hemp, Bool.false_eq_true, if_false, hag]

/-- C6: `run_aider_on_folder` is a total function into result records (the
embedding returns `RunResult × FsPath` with no escaping exception), and on
each internal failure — discovery failure, including a missing root
directory, and an exception raised by the agent — it returns the structured
record with `fileChanged = false` and the descriptive
`Error running Aider: ...` text produced by the outer `except` handler. -/
theorem run_aider_on_folder_failures_structured :
    ∀ (fs : FileSystem) (env : AgentEnv) (folder : FsPath)
      (system_message user_message : PyStr) (cwd : FsPath),
      (∀ msg, find_web_files fs (select_target fs folder) = .error msg →
        (run_aider_on_folder fs env folder system_message user_message cwd).1 =
          ⟨toL "Error running Aider: " ++ msg, false⟩) ∧
      (∀ files e, find_web_files fs (select_target fs folder) = .ok files →
        files.isEmpty = false → env.agentResult = .error e →
        (run_aider_on_folder fs env folder system_message user_message cwd).1 =
          ⟨toL "Error running Aider: " ++ e, false⟩) := by
  intro fs env folder s u cwd
  constructor
  · intro msg hmsg
    unfold run_aider_on_folder
    simp only [hmsg]
  · intro files e hfiles hne hagent
    unfold run_aider_on_folder
    simp only [hfiles, hne, Bool.false_eq_true, if_false, hagent]

/-- C6 witness: a missing root directory yields the structured
`Folder not found` error record, and an agent exception `boom` on the
concrete `www` folder yields the structured `boom` error record. -/
theorem run_aider_on_folder_failures_structured_witness :
    (run_aider_on_folder ⟨[]⟩ helloEnv [toL "missing"] (toL "s") (toL "u") [toL "home"]).1 =
      ⟨toL "Error running Aider: " ++ (toL "Folder not found: " ++ toL "missing"), false⟩ ∧
    (run_aider_on_folder wwwFs boomEnv [toL "www"] (toL "s") (toL "u") [toL "home"]).1 =
      ⟨toL "Error running Aider: " ++ toL "boom", false⟩ :=
  ⟨(run_aider_on_folder_failures_structured ⟨[]⟩ helloEnv [toL "missing"]
      (toL "s") (toL "u") [toL "home"]).1
      (toL "Folder not found: " ++ toL "missing") (by decide),
   (run_aider_on_folder_failures_structured wwwFs boomEnv [toL "www"]
      (toL "s") (toL "u") [toL "home"]).2
      [[toL "www", toL "index.html"], [toL "www", toL "index.html"]] (toL "boom")
      (by decide) (by decide) rfl⟩

/-- C7 counterexample: the claim says a run in which the agent exceeds the
timeout bound yields `{userOutput: "", fileChanged: false}`; but the source
wraps `aider_main` in no timeout at all: a run taking 10^9 time units
produces the same non-empty user output as an instantaneous run. -/
theorem run_aider_on_folder_long_run_not_empty :
    ((run_aider_on_folder wwwFs { helloEnv with agentDuration := 1000000000 }
        [toL "www"] (toL "s") (toL "u") [toL "home"]).1).userOutput ≠ [] ∧
    run_aider_on_folder wwwFs { helloEnv with agentDuration := 1000000000 }
        [toL "www"] (toL "s") (toL "u") [toL "home"] =
      run_aider_on_folder wwwFs helloEnv [toL "www"] (toL "s") (toL "u") [toL "home"] := by
  decide

/-- C7 (amended): `run_aider_on_folder` enforces no wall-clock timeout on
the agent invocation: its result is independent of the duration of the
agent process (the only timeout in the pipeline is the 10-second bound on
the `git rev-parse` subprocess, whose expiry is modelled by a failed
`GitQuery` and merely yields an empty fingerprint). -/
theorem run_aider_on_folder_duration_independent :
    ∀ (fs : FileSystem) (env : AgentEnv) (folder : FsPath)
      (system_message user_message : PyStr) (cwd : FsPath) (d₁ d₂ : Nat),
      run_aider_on_folder fs { env with agentDuration := d₁ }
          folder system_message user_message cwd =
        run_aider_on_folder fs { env with agentDuration := d₂ }
          folder system_message user_message cwd := by
  intro fs env folder s u cwd d₁ d₂
  rfl

/-- The combined message always starts with the character `S` of the
`System: ` marker. -/
theorem full_message_head :
    ∀ (system_message user_message : PyStr),
      (full_message system_message user_message).head? = some 'S' := by
  intro s u
  rfl

/-- The final component of a slash-join is a suffix of the join. -/
theorem getLast_suffix_joinSlash :
    ∀ (l : List PyStr) (n : PyStr), n <:+ joinSlash (l ++ [n]) := by
  intro l n
  induction l with
  | nil => exact List.suffix_rfl
  | cons d l ih =>
    have hstep : joinSlash (d :: (l ++ [n])) = d ++ toL "/" ++ joinSlash (l ++ [n]) := by
      cases l with
      | nil => rfl
      | cons x xs => rfl
    rw [List.cons_append, hstep]
    exact ih.trans (List.suffix_append (d ++ toL "/") (joinSlash (l ++ [n])))

/-- Every element of the constructed agent argument list is one of the
fixed flags, the combined message, the `--file` marker, or a file reference
ending in one of the web extensions. -/
theorem run_argv_elem :
    ∀ (fs : FileSystem) (folder : FsPath) (system_message user_message x : PyStr),
      x ∈ run_argv fs folder system_message user_message →
      x = toL "--model" ∨ x = toL "gpt-5" ∨ x = toL "--message" ∨
      x = full_message system_message user_message ∨ x = toL "--yes" ∨
      x = toL "--no-pretty" ∨ x = toL "--no-detect-urls" ∨ x = toL "--no-git" ∨
      x = toL "--file" ∨ ∃ ext, ext ∈ webExtensions ∧ ext <:+ x := by
  intro fs folder s u x hx
  unfold run_argv build_argv at hx
  rcases List.mem_append.mp hx with hfix | hfl
  · simp only [List.mem_cons, List.not_mem_nil, or_false] at hfix
    tauto
  · rcases List.mem_flatMap.mp hfl with ⟨f, hf, hxf⟩
    simp only [List.mem_cons, List.not_mem_nil, or_false] at hxf
    rcases hxf with hxf | hxf
    · tauto
    · cases hfind : find_web_files fs (select_target fs folder) with
      | error msg =>
        rw [hfind] at hf
        simp [Except.toOption] at hf
      | ok files =>
        rw [hfind] at hf
        simp only [Except.toOption, Option.getD_some] at hf
        rcases List.mem_map.mp hf with ⟨p, hpmem, hfp⟩
        rcases mem_find_web_files_cases fs _ files p hfind hpmem with
          ⟨e, _, _, rel, n, hs, hg, ext, hext, hm⟩
        simp only [matchesStar, Bool.and_eq_true] at hm
        have hrel : rel.dropLast ++ [n] = rel :=
          List.dropLast_append_getLast? n (Option.mem_def.mpr hg)
        have hn : n <:+ joinSlash rel := by
          rw [← hrel]
          exact getLast_suffix_joinSlash rel.dropLast n
        have hextn : ext <:+ n := List.isSuffixOf_iff_suffix.mp hm.1
        have hjoin : relpath (select_target fs folder) p = joinSlash rel := by
          unfold relpath
          rw [hs]
          rfl
        refine Or.inr (Or.inr (Or.inr (Or.inr (Or.inr (Or.inr (Or.inr (Or.inr (Or.inr
          ⟨ext, hext, ?_⟩))))))))
        rw [hxf, ← hfp, hjoin]
        exact hextn.trans hn

/-- A string that is none of the fixed argument strings, does not start
with `S`, and does not end in a web extension never occurs in the
constructed argument list. -/
theorem not_mem_run_argv :
    ∀ (fs : FileSystem) (folder : FsPath) (system_message user_message flag : PyStr),
      flag ∉ [toL "--model", toL "gpt-5", toL "--message", toL "--yes", toL "--no-pretty",
              toL "--no-detect-urls", toL "--no-git", toL "--file"] →
      flag.head? ≠ some 'S' →
      (∀ ext ∈ webExtensions, ¬ ext <:+ flag) →
      flag ∉ run_argv fs folder system_message user_message := by
  intro fs folder s u flag hfix hhead hsfx hmem
  rcases run_argv_elem fs folder s u flag hmem with h|h|h|h|h|h|h|h|h|⟨ext, hext, hs⟩
  · exact hfix (by rw [h]; simp)
  · exact hfix (by rw [h]; simp)
  · exact hfix (by rw [h]; simp)
  · exact hhead (by rw [h]; exact full_message_head s u)
  · exact hfix (by rw [h]; simp)
  · exact hfix (by rw [h]; simp)
  · exact hfix (by rw [h]; simp)
  · exact hfix (by rw [h]; simp)
  · exact hfix (by rw [h]; simp)
  · exact hsfx ext hext hs

/-- C10: the argument list constructed for the agent always contains the
flag `--no-git` (the invoker unconditionally disables the version-control
integration of the agent itself), and never contains a prompt-caching or
weak/editor model argument. -/
theorem run_argv_flags :
    ∀ (fs : FileSystem) (folder : FsPath) (system_message user_message : PyStr),
      toL "--no-git" ∈ run_argv fs folder system_message user_message ∧
      toL "--cache-prompts" ∉ run_argv fs folder system_message user_message ∧
      toL "--cache-keepalive-pings" ∉ run_argv fs folder system_message user_message ∧
      toL "--weak-model" ∉ run_argv fs folder system_message user_message ∧
      toL "--editor-model" ∉ run_argv fs folder system_message user_message := by
  intro fs folder s u
  refine ⟨?_, ?_, ?_, ?_, ?_⟩
  · unfold run_argv build_argv
    exact List.mem_append_left _ (by simp)
  · exact not_mem_run_argv fs folder s u _ (by decide) (by decide) (by decide)
  · exact not_mem_run_argv fs folder s u _ (by decide) (by decide) (by decide)
  · exact not_mem_run_argv fs folder s u _ (by decide) (by decide) (by decide)
  · exact not_mem_run_argv fs folder s u _ (by decide) (by decide) (by decide)
